import Mathlib

/-!
Verification development for the CareLink care-services marketplace backend.

The definitions below are a shallow embedding of the repository's core
decision logic:

* `Payhere` — the escrow payment functions of
  `src/services/payhere.service.ts` (`calculatePaymentBreakdown`,
  `verifyPaymentNotification`, `handlePaymentNotification`,
  `releaseEscrowPayment`).  Database rows touched by the functions are
  modelled explicitly; every function returns the final database state
  together with an `Except` outcome, so that a thrown error before a write
  is visibly distinguished from one after a write.  The external MD5 hex
  digest is a parameter `md5hex : String → String`.
* `Matching` — the geospatial provider matcher of
  `src/services/bookingMatch.service.ts` (`findMatchingProviders`,
  `createBookingAndFindMatches`).  The PostGIS `ORDER BY trust DESC,
  distance ASC LIMIT n` query is modelled by an executable sort of the
  joined rows; the external geodesic metric is a parameter.
* `TrustScore` — the SQL function `calculate_provider_trust_score` of the
  database migration file.

Rational numbers stand for the numeric columns (`DOUBLE PRECISION`,
JavaScript numbers); `round` is Mathlib's round-half-up, which agrees with
JavaScript `Math.round`.
-/

/-- Booking lifecycle statuses (`BookingStatus` of the Prisma schema). -/
inductive BookingStatus
  | PENDING
  | MATCHED
  | CONFIRMED
  | IN_PROGRESS
  | COMPLETED
  | CANCELLED
  | DISPUTED
deriving DecidableEq, Repr

deriving instance DecidableEq for Except

/-- JavaScript `toUpperCase` on the ASCII strings this code handles (hex
digests, addresses): character-wise `Char.toUpper`. -/
def strToUpper (s : String) : String := ⟨s.data.map Char.toUpper⟩

namespace Payhere

/-- Payment statuses (`PaymentStatus` of the Prisma schema). -/
inductive PaymentStatus
  | PENDING
  | HELD_IN_ESCROW
  | RELEASED
  | REFUNDED
  | FAILED
deriving DecidableEq, Repr

/-- `PLATFORM_FEE_PERCENTAGE = 10` in `payhere.service.ts`. -/
def PLATFORM_FEE_PERCENTAGE : ℚ := 10

/-- Result record of `calculatePaymentBreakdown`. -/
structure PaymentBreakdown where
  totalAmount : ℚ
  platformFee : ℚ
  providerPayout : ℚ
deriving DecidableEq, Repr

/-- `calculatePaymentBreakdown` of `payhere.service.ts`:
`platformFee = Math.round(totalAmount * (10 / 100) * 100) / 100` and
`providerPayout = totalAmount - platformFee`. -/
def calculatePaymentBreakdown (totalAmount : ℚ) : PaymentBreakdown :=
  let platformFee : ℚ :=
    (round (totalAmount * (PLATFORM_FEE_PERCENTAGE / 100) * 100) : ℚ) / 100
  { totalAmount := totalAmount
    platformFee := platformFee
    providerPayout := totalAmount - platformFee }

/-- Internal verification statuses returned by `verifyPaymentNotification`. -/
inductive VerStatus
  | SUCCESS
  | FAILED
  | PENDING
  | CANCELLED
deriving DecidableEq, Repr

/-- `mapStatusCode` of `payhere.service.ts`: PayHere status codes map to
internal statuses, any unknown code maps to FAILED. -/
def mapStatusCode (s : String) : VerStatus :=
  if s = "2" then .SUCCESS
  else if s = "0" then .PENDING
  else if s = "-1" then .CANCELLED
  else if s = "-2" then .FAILED
  else if s = "-3" then .FAILED
  else .FAILED

/-- `mapToPrismaPaymentStatus` of `payhere.service.ts`. -/
def mapToPrismaPaymentStatus : VerStatus → PaymentStatus
  | .SUCCESS => .HELD_IN_ESCROW
  | .FAILED => .FAILED
  | .CANCELLED => .PENDING
  | .PENDING => .PENDING

/-- The fields of a PayHere webhook notification
(`PayHereNotification` in `payhere.service.ts`). -/
structure PayHereNotification where
  merchant_id : String
  order_id : String
  payment_id : String
  payhere_amount : String
  payhere_currency : String
  status_code : String
  status_message : String
  method : String
  md5sig : String
  custom_1 : Option String
deriving DecidableEq, Repr

/-- The fields of `PaymentVerificationResult` used downstream (the
`amount` field, a `parseFloat` of `payhere_amount`, is kept as the raw
string since no claim depends on the float conversion). -/
structure PaymentVerificationResult where
  valid : Bool
  status : VerStatus
  orderId : String
  paymentId : String
  amountStr : String
  message : String
deriving DecidableEq, Repr

/-- `generateNotificationHash` of `payhere.service.ts`:
`MD5(merchant_id + order_id + amount + currency + status_code +
MD5(merchant_secret).toUpperCase()).toUpperCase()`, with the external MD5
hex digest abstracted as `md5hex`. -/
def generateNotificationHash (md5hex : String → String)
    (merchantId orderId amount currency statusCode merchantSecret : String) :
    String :=
  let secretHash := strToUpper (md5hex merchantSecret)
  strToUpper (md5hex (merchantId ++ orderId ++ amount ++ currency
      ++ statusCode ++ secretHash))

/-- `verifyPaymentNotification` of `payhere.service.ts`: recompute the
signature and compare `md5sig.toUpperCase() !== expectedSig.toUpperCase()`;
on mismatch return an invalid result, otherwise a valid result carrying
the mapped status. -/
def verifyPaymentNotification (md5hex : String → String)
    (merchantSecret : String) (n : PayHereNotification) :
    PaymentVerificationResult :=
  let expectedSig := generateNotificationHash md5hex n.merchant_id
    n.order_id n.payhere_amount n.payhere_currency n.status_code
    merchantSecret
  if strToUpper n.md5sig ≠ strToUpper expectedSig then
    { valid := false
      status := .FAILED
      orderId := n.order_id
      paymentId := n.payment_id
      amountStr := n.payhere_amount
      message := "Invalid signature - possible spoofing attempt" }
  else
    { valid := true
      status := mapStatusCode n.status_code
      orderId := n.order_id
      paymentId := n.payment_id
      amountStr := n.payhere_amount
      message := n.status_message }

/-- The booking row as touched by the payment functions: lifecycle
`status` and `paymentStatus` columns of the `Booking` table. -/
structure BookingPayRecord where
  id : String
  status : BookingStatus
  paymentStatus : PaymentStatus
deriving DecidableEq, Repr

/-- An `auditLog` row as created by the payment functions. -/
structure AuditEntry where
  action : String
  entityId : String
  reason : String
deriving DecidableEq, Repr

/-- The database state visible to the payment functions. -/
structure PayDB where
  bookings : List BookingPayRecord
  auditLog : List AuditEntry
deriving DecidableEq, Repr

/-- Errors thrown by the payment functions (the service throws plain
`Error`s with distinct messages; distinct constructors model the distinct
messages). -/
inductive PayErr
  | InvalidSignature
  | MissingBookingId
  | RecordNotFound (id : String)
  | BookingNotFound (id : String)
  | CannotRelease (current : PaymentStatus)
deriving DecidableEq, Repr

/-- `prisma.booking.findUnique({ where: { id } })`. -/
def findBooking (db : PayDB) (bid : String) : Option BookingPayRecord :=
  db.bookings.find? (fun b => b.id == bid)

/-- `prisma.booking.update({ where: { id }, data: { paymentStatus } })`:
updates the record when present, `none` models the thrown `P2025` when the
record is missing. -/
def updatePaymentStatus (db : PayDB) (bid : String) (ps : PaymentStatus) :
    Option PayDB :=
  if db.bookings.any (fun b => b.id == bid) then
    some { db with
      bookings := db.bookings.map (fun b =>
        if b.id == bid then { b with paymentStatus := ps } else b) }
  else none

/-- Pretty-printed status used in the audit `reason` string. -/
def verStatusText : VerStatus → String
  | .SUCCESS => "SUCCESS"
  | .FAILED => "FAILED"
  | .PENDING => "PENDING"
  | .CANCELLED => "CANCELLED"

/-- `handlePaymentNotification` of `payhere.service.ts`: verify the
signature (throw before any write on failure), read the booking id from
`custom_1`, update the booking's payment status from the mapped status,
update it again to HELD_IN_ESCROW when the status is SUCCESS, and append
an audit-log entry.  The returned `PayDB` is the state after all writes
performed before a throw; no write precedes any throw here. -/
def handlePaymentNotification (md5hex : String → String)
    (merchantSecret : String) (db : PayDB) (n : PayHereNotification) :
    PayDB × Except PayErr Unit :=
  let v := verifyPaymentNotification md5hex merchantSecret n
  if v.valid = false then (db, .error .InvalidSignature)
  else
    match n.custom_1 with
    | none => (db, .error .MissingBookingId)
    | some bid =>
      match updatePaymentStatus db bid (mapToPrismaPaymentStatus v.status) with
      | none => (db, .error (.RecordNotFound bid))
      | some db1 =>
        match (if v.status = .SUCCESS then
                updatePaymentStatus db1 bid .HELD_IN_ESCROW
              else some db1) with
        | none => (db1, .error (.RecordNotFound bid))
        | some db2 =>
          ({ db2 with
              auditLog := db2.auditLog ++
                [{ action := "PAYMENT_NOTIFICATION"
                   entityId := bid
                   reason := "PayHere payment " ++ verStatusText v.status
                     ++ ": " ++ v.message }] },
           .ok ())

/-- `releaseEscrowPayment` of `payhere.service.ts`: throws when the
booking is missing, throws the distinct cannot-release error when
`paymentStatus !== HELD_IN_ESCROW`, and otherwise sets RELEASED and logs.
The booking lifecycle `status` column is never read. -/
def releaseEscrowPayment (db : PayDB) (bid : String) :
    PayDB × Except PayErr Unit :=
  match findBooking db bid with
  | none => (db, .error (.BookingNotFound bid))
  | some b =>
    if b.paymentStatus ≠ .HELD_IN_ESCROW then
      (db, .error (.CannotRelease b.paymentStatus))
    else
      match updatePaymentStatus db bid .RELEASED with
      | none => (db, .error (.RecordNotFound bid))
      | some db1 =>
        ({ db1 with
            auditLog := db1.auditLog ++
              [{ action := "PAYMENT_RELEASED"
                 entityId := bid
                 reason := "" }] },
         .ok ())


end Payhere

namespace Escalation

/-- Who pressed the emergency button. -/
inductive Party
  | CUSTOMER
  | PROVIDER
deriving DecidableEq, Repr

/-- Text of the triggering party used in the stored escalation reason. -/
def partyText : Party → String
  | .CUSTOMER => "CUSTOMER"
  | .PROVIDER => "PROVIDER"

/-- The booking ("shift") row as read and written by `escalateEmergency`. -/
structure ShiftRecord where
  id : String
  status : BookingStatus
  locationAddress : String
  emergencyPhone : Option String
  cancellationReason : Option String
deriving DecidableEq, Repr

/-- An `auditLog` row created by the escalation service; its creation is
the incident record of the protocol. -/
structure EscAudit where
  userId : String
  action : String
  entityId : String
  oldStatus : BookingStatus
  newStatus : BookingStatus
deriving DecidableEq, Repr

/-- Database state visible to the escalation service. -/
structure EscDB where
  shifts : List ShiftRecord
  auditLog : List EscAudit
deriving DecidableEq, Repr

/-- `EmergencyEscalationInput` of `escalateEmergency`. -/
structure EscalationInput where
  shiftId : String
  triggeredBy : Party
  triggeredByUserId : String
  reason : Option String
deriving DecidableEq, Repr

/-- `EmergencyEscalationResult`. -/
structure EscalationResult where
  success : Bool
  emergencyNumber : String
  shiftFrozen : Bool
  smsSent : Bool
  incidentReported : Bool
deriving DecidableEq, Repr

/-- The two distinct errors thrown by `escalateEmergency`
("Shift not found: id" and "Cannot escalate emergency for shift in
status: s"). -/
inductive EscErr
  | ShiftNotFound (id : String)
  | InvalidStatusForEscalation (s : BookingStatus)
deriving DecidableEq, Repr

/-- Sri Lanka national emergency ambulance number (`1990`). -/
def DEFAULT_EMERGENCY_NUMBER : String := "1990"

/-- Substring occurrence on character lists; the semantics of JavaScript
`String.prototype.includes`. -/
def charsHasSub (pat : List Char) : List Char → Bool
  | [] => pat.isEmpty
  | c :: rest => pat.isPrefixOf (c :: rest) || charsHasSub pat rest

/-- `s.includes(pat)` on strings. -/
def strContainsSub (s pat : String) : Bool :=
  charsHasSub pat.toList s.toList

/-- The hardcoded hospital emergency-number table of
`determineEmergencyNumber`, in source order. -/
def hospitalEmergencyNumbers : List (String × String) :=
  [("COLOMBO GENERAL HOSPITAL", "011-2691111"),
   ("NATIONAL HOSPITAL", "011-2691111"),
   ("ASIRI HOSPITAL", "011-4665500"),
   ("NAWALOKA HOSPITAL", "011-5777777"),
   ("DURDANS HOSPITAL", "011-2140000"),
   ("LANKA HOSPITALS", "011-5530000")]

/-- `determineEmergencyNumber`: uppercase the address, return the first
hospital entry whose name occurs in it, else the national default. -/
def determineEmergencyNumber (addr : String) : String :=
  let locationUpper := strToUpper addr
  match hospitalEmergencyNumbers.find?
      (fun hn => strContainsSub locationUpper hn.1) with
  | some hn => hn.2
  | none => DEFAULT_EMERGENCY_NUMBER

/-- `escalateEmergency` of the emergency escalation service: fetch the
shift (throw "Shift not found" when missing), throw the distinct
invalid-status error unless the status is IN_PROGRESS, MATCHED or
CONFIRMED, and only then freeze the shift to DISPUTED, resolve the
emergency number, attempt the SMS when an emergency contact exists, and
append the audit (incident) row.  `smsOk` models the outcome of the
external `sendSMS` call; both checks precede every write. -/
def escalateEmergency (smsOk : Bool) (db : EscDB) (input : EscalationInput) :
    EscDB × Except EscErr EscalationResult :=
  match db.shifts.find? (fun s => s.id == input.shiftId) with
  | none => (db, .error (.ShiftNotFound input.shiftId))
  | some shift =>
    if shift.status = BookingStatus.IN_PROGRESS
        ∨ shift.status = BookingStatus.MATCHED
        ∨ shift.status = BookingStatus.CONFIRMED then
      let reasonText := "EMERGENCY_ESCALATION: Triggered by "
        ++ partyText input.triggeredBy ++ ". Reason: "
        ++ input.reason.getD "Not specified"
      let db1 : EscDB := { db with
        shifts := db.shifts.map (fun s : ShiftRecord =>
          if s.id == input.shiftId then
            { s with status := BookingStatus.DISPUTED
                     cancellationReason := some reasonText }
          else s) }
      let emergencyNumber := determineEmergencyNumber shift.locationAddress
      let smsSent := match shift.emergencyPhone with
        | some _ => smsOk
        | none => false
      let db2 : EscDB := { db1 with
        auditLog := db1.auditLog ++
          [{ userId := input.triggeredByUserId
             action := "EMERGENCY_ESCALATION"
             entityId := input.shiftId
             oldStatus := shift.status
             newStatus := BookingStatus.DISPUTED }] }
      (db2, .ok { success := true
                  emergencyNumber := emergencyNumber
                  shiftFrozen := true
                  smsSent := smsSent
                  incidentReported := true })
    else (db, .error (.InvalidStatusForEscalation shift.status))

end Escalation

namespace Matching

/-- `UserRole` values relevant to the matcher. -/
inductive Role
  | PROVIDER
  | CUSTOMER
  | ADMIN
deriving DecidableEq, Repr

/-- A geographic position (the PostGIS point; coordinates as rationals). -/
abbrev Pos := ℚ × ℚ

/-- `SEARCH_RADIUS_METERS = 10000` in `bookingMatch.service.ts`. -/
def SEARCH_RADIUS_METERS : ℚ := 10000

/-- `MAX_PROVIDERS = 50` in `bookingMatch.service.ts`. -/
def MAX_PROVIDERS : Nat := 50

/-- One row of the `User ⋈ Profile ⋈ ProviderSkill` join that the raw SQL
query of `findMatchingProviders` ranges over. -/
structure ProviderRow where
  providerId : Nat
  fullName : String
  role : Role
  isActive : Bool
  serviceCategoryId : Nat
  isVerified : Bool
  location : Option Pos
  skillTrustScore : ℚ
  yearsExperience : Nat
deriving DecidableEq, Repr

/-- A selected row together with its computed `distance_meters` column. -/
structure Ranked where
  row : ProviderRow
  distanceMeters : ℚ
deriving DecidableEq, Repr

/-- WHERE clause and `ST_Distance` projection of the PostGIS query: a row
passes when `u.role = 'PROVIDER'`, `u.is_active`, the skill-grant matches
the requested category and `ps.is_verified`, `p.location IS NOT NULL`,
and `ST_DWithin(location, query, radius)` holds; PostGIS `ST_DWithin` is
the inclusive comparison distance ≤ radius.  The geodesic metric `dist`
is the external PostGIS geography distance. -/
def rankRow (dist : Pos → Pos → ℚ) (catId : Nat) (q : Pos) (radius : ℚ)
    (r : ProviderRow) : Option Ranked :=
  match r.location with
  | none => none
  | some p =>
    if r.role = Role.PROVIDER ∧ r.isActive = true
        ∧ r.serviceCategoryId = catId ∧ r.isVerified = true
        ∧ dist p q ≤ radius then
      some { row := r, distanceMeters := dist p q }
    else none

/-- The SQL ordering `ORDER BY ps.skill_trust_score DESC,
distance_meters ASC` as a total order on selected rows. -/
def candLE (a b : Ranked) : Prop :=
  b.row.skillTrustScore < a.row.skillTrustScore
  ∨ (a.row.skillTrustScore = b.row.skillTrustScore
      ∧ a.distanceMeters ≤ b.distanceMeters)

instance : DecidableRel candLE := fun a b => by
  unfold candLE
  exact inferInstance

instance : IsTotal Ranked candLE := by
  constructor
  intro a b
  unfold candLE
  rcases lt_trichotomy a.row.skillTrustScore b.row.skillTrustScore with h | h | h
  · exact Or.inr (Or.inl h)
  · rcases le_total a.distanceMeters b.distanceMeters with hd | hd
    · exact Or.inl (Or.inr ⟨h, hd⟩)
    · exact Or.inr (Or.inr ⟨h.symm, hd⟩)
  · exact Or.inl (Or.inl h)

instance : IsTrans Ranked candLE := by
  constructor
  intro a b c hab hbc
  rcases hab with h1 | ⟨h1, d1⟩
  · rcases hbc with h2 | ⟨h2, d2⟩
    · exact Or.inl (lt_trans h2 h1)
    · exact Or.inl (h2 ▸ h1)
  · rcases hbc with h2 | ⟨h2, d2⟩
    · exact Or.inl (by rw [h1]; exact h2)
    · exact Or.inr ⟨h1.trans h2, le_trans d1 d2⟩

/-- JavaScript `Math.round(x * 10) / 10` (round half up to one decimal). -/
def round1 (x : ℚ) : ℚ := (round (x * 10) : ℚ) / 10

/-- The `MatchedProvider` projection returned to the caller. -/
structure MatchedProvider where
  providerId : Nat
  fullName : String
  trustScore : ℚ
  yearsExperience : Nat
  distanceKm : ℚ
deriving DecidableEq, Repr

/-- The result mapping of `findMatchingProviders`: trust score rounded to
one decimal, distance converted to kilometers and rounded to one
decimal. -/
def toMatchedProvider (rk : Ranked) : MatchedProvider :=
  { providerId := rk.row.providerId
    fullName := rk.row.fullName
    trustScore := round1 rk.row.skillTrustScore
    yearsExperience := rk.row.yearsExperience
    distanceKm := round1 (rk.distanceMeters / 1000) }

/-- Rows produced by the SQL query before the TypeScript mapping: filter,
order by (trust score descending, distance ascending), `LIMIT limit`. -/
def matchRows (dist : Pos → Pos → ℚ) (providers : List ProviderRow)
    (catId : Nat) (q : Pos) (radius : ℚ) (limit : Nat) : List Ranked :=
  (List.insertionSort candLE
    (providers.filterMap (rankRow dist catId q radius))).take limit

/-- `findMatchingProviders` of `bookingMatch.service.ts`. -/
def findMatchingProviders (dist : Pos → Pos → ℚ)
    (providers : List ProviderRow) (catId : Nat) (q : Pos) (radius : ℚ)
    (limit : Nat) : List MatchedProvider :=
  (matchRows dist providers catId q radius limit).map toMatchedProvider

/-- A `User` row as read by `createBookingAndFindMatches`. -/
structure UserRec where
  id : String
  isActive : Bool
  role : Role
deriving DecidableEq, Repr

/-- A `ServiceCategory` row. -/
structure CategoryRec where
  id : Nat
  slug : String
  isActive : Bool
deriving DecidableEq, Repr

/-- A `Booking` row as created by `createBookingAndFindMatches`. -/
structure BookingRec where
  customerId : String
  serviceCategoryId : Nat
  status : BookingStatus
  careRecipientName : String
  locationLat : ℚ
  locationLng : ℚ
  notes : Option String
deriving DecidableEq, Repr

/-- Database state visible to `createBookingAndFindMatches`. -/
structure MatchDB where
  users : List UserRec
  categories : List CategoryRec
  bookings : List BookingRec
deriving DecidableEq, Repr

/-- `CreateBookingMatchInput` (already validated upstream). -/
structure CreateBookingMatchInput where
  customerId : String
  careRecipientName : String
  serviceCategorySlug : String
  locationLat : ℚ
  locationLng : ℚ
  notes : Option String
deriving DecidableEq, Repr

/-- The distinct `AppError`s thrown by `createBookingAndFindMatches` and
`findMatchingProviders`. -/
inductive MatchErr
  | CustomerNotFound (id : String)
  | CustomerInactive (id : String)
  | ServiceCategoryNotFound (slug : String)
  | ServiceCategoryInactive (slug : String)
  | GeospatialQueryFailed
deriving DecidableEq, Repr

/-- `BookingMatchResult`. -/
structure BookingMatchResult where
  booking : BookingRec
  matchedProviders : List MatchedProvider
  totalMatches : Nat
deriving DecidableEq, Repr

/-- The booking record built by the `prisma.booking.create` call in Step
3: status is always `PENDING`. -/
def mkBooking (input : CreateBookingMatchInput) (catId : Nat) : BookingRec :=
  { customerId := input.customerId
    serviceCategoryId := catId
    status := BookingStatus.PENDING
    careRecipientName := input.careRecipientName
    locationLat := input.locationLat
    locationLng := input.locationLng
    notes := input.notes }

/-- `createBookingAndFindMatches` of `bookingMatch.service.ts`: validate
customer and category, insert the booking with `PENDING` status, then run
the geospatial query.  The insert is a plain `prisma.booking.create` with
no surrounding transaction, so the returned database always contains the
booking once Step 3 ran; `geoFails` models the external spatial query
throwing inside `findMatchingProviders` (wrapped there into
`GeospatialQueryError`, an `AppError` the service's catch block re-throws
unchanged). -/
def createBookingAndFindMatches (dist : Pos → Pos → ℚ)
    (provs : List ProviderRow) (geoFails : Bool) (db : MatchDB)
    (input : CreateBookingMatchInput) :
    MatchDB × Except MatchErr BookingMatchResult :=
  match db.users.find? (fun x => x.id == input.customerId) with
  | none => (db, .error (.CustomerNotFound input.customerId))
  | some u =>
    if u.isActive = false then
      (db, .error (.CustomerInactive input.customerId))
    else
      match db.categories.find? (fun x => x.slug == input.serviceCategorySlug) with
      | none => (db, .error (.ServiceCategoryNotFound input.serviceCategorySlug))
      | some c =>
        if c.isActive = false then
          (db, .error (.ServiceCategoryInactive input.serviceCategorySlug))
        else
          let booking := mkBooking input c.id
          let db1 := { db with bookings := db.bookings ++ [booking] }
          if geoFails then (db1, .error .GeospatialQueryFailed)
          else
            let matched := findMatchingProviders dist provs c.id
              (input.locationLat, input.locationLng)
              SEARCH_RADIUS_METERS MAX_PROVIDERS
            (db1, .ok { booking := booking
                        matchedProviders := matched
                        totalMatches := matched.length })

end Matching

namespace TrustScore

/-- A `bookings` row as read by `calculate_provider_trust_score`
(`isCompleted` is `status = 'COMPLETED'`). -/
structure BookingRow where
  providerId : Nat
  isCompleted : Bool
deriving DecidableEq, Repr

/-- A `reviews` row (`rating` is `DOUBLE PRECISION`). -/
structure ReviewRow where
  targetId : Nat
  rating : ℚ
deriving DecidableEq, Repr

/-- A `verification_docs` row (`isVerified` is `status = 'VERIFIED'`). -/
structure DocRow where
  userId : Nat
  isVerified : Bool
deriving DecidableEq, Repr

/-- A `profiles` row (`responseTimeMin` is the nullable
`response_time_min` column). -/
structure ProfileRow where
  userId : Nat
  responseTimeMin : Option ℚ
deriving DecidableEq, Repr

/-- Database state visible to `calculate_provider_trust_score`. -/
structure TrustDB where
  bookings : List BookingRow
  reviews : List ReviewRow
  verificationDocs : List DocRow
  profiles : List ProfileRow
deriving DecidableEq, Repr

/-- Completion-rate query of `calculate_provider_trust_score` as written:
`SELECT COALESCE(count(completed)::float / NULLIF(COUNT(*), 0), 0) * 100
FROM bookings WHERE provider_id = provider_id`.  The PL/pgSQL parameter
`provider_id` shadows the column `bookings.provider_id`; under
PostgreSQL's default `plpgsql.variable_conflict = error` the statement
raises error 42702 at runtime, and under the `use_column` resolution
(taken here so that the function stays executable) the clause compares
the column with itself and counts every booking row regardless of
provider. -/
def completionRateAsWritten (db : TrustDB) : ℚ :=
  if db.bookings.length = 0 then 0
  else ((db.bookings.filter (fun b => b.isCompleted)).length : ℚ)
      / (db.bookings.length : ℚ) * 100

/-- `COALESCE(AVG(rating), 0) * 20` over
`reviews WHERE target_id = provider_id`. -/
def avgRatingComponent (db : TrustDB) (pid : Nat) : ℚ :=
  (if (db.reviews.filter (fun r => r.targetId == pid)).length = 0 then 0
   else ((db.reviews.filter (fun r => r.targetId == pid)).map
        (fun r => r.rating)).sum
      / ((db.reviews.filter (fun r => r.targetId == pid)).length : ℚ)) * 20

/-- Verification component: 0 when the provider has no documents, else
verified count over total count times 100. -/
def verificationComponent (db : TrustDB) (pid : Nat) : ℚ :=
  let ds := db.verificationDocs.filter (fun d => d.userId == pid)
  if ds.length = 0 then 0
  else ((ds.filter (fun d => d.isVerified)).length : ℚ)
      / (ds.length : ℚ) * 100

/-- Responsiveness step function on the nullable median response time:
NULL → 50, ≤15 → 100, ≤30 → 80, ≤60 → 60, else 40. -/
def responseScore : Option ℚ → ℚ
  | none => 50
  | some t =>
    if t ≤ 15 then 100
    else if t ≤ 30 then 80
    else if t ≤ 60 then 60
    else 40

/-- `calculate_provider_trust_score` of the migration SQL:
weighted sum `completion * 0.4 + rating * 0.3 + verification * 0.2 +
response * 0.1`, with no clamping.  `none` models the NULL result when
the provider has no `profiles` row (the `SELECT ... INTO response_score`
leaves the variable NULL and the returned sum is NULL). -/
def calculate_provider_trust_score (db : TrustDB) (pid : Nat) : Option ℚ :=
  match db.profiles.find? (fun p => p.userId == pid) with
  | none => none
  | some pr =>
    some (completionRateAsWritten db * (4 / 10)
      + avgRatingComponent db pid * (3 / 10)
      + verificationComponent db pid * (2 / 10)
      + responseScore pr.responseTimeMin * (1 / 10))

/-- Per-provider completion rate that the function's comment ("Calculate
completion rate") and the specification intend: THIS provider's completed
bookings over this provider's total bookings, 0 when the provider has no
bookings. -/
def completionRateIntended (db : TrustDB) (pid : Nat) : ℚ :=
  let rows := db.bookings.filter (fun b => b.providerId == pid)
  if rows.length = 0 then 0
  else ((rows.filter (fun b => b.isCompleted)).length : ℚ)
      / (rows.length : ℚ) * 100

/-- The trust score with the intended per-provider completion rate; the
other three components are as written (their queries filter by the
provider correctly). -/
def trustScoreIntended (db : TrustDB) (pid : Nat) : Option ℚ :=
  match db.profiles.find? (fun p => p.userId == pid) with
  | none => none
  | some pr =>
    some (completionRateIntended db pid * (4 / 10)
      + avgRatingComponent db pid * (3 / 10)
      + verificationComponent db pid * (2 / 10)
      + responseScore pr.responseTimeMin * (1 / 10))

end TrustScore

/-! Concrete instances used by the witness and counterexample theorems
below. -/

/-- Stand-in digest for the external MD5 used in the duplicate-delivery
scenario (constant uppercase hex output). -/
def c1md5 : String → String := fun _ => "AA"

/-- A SUCCESS notification for order "ORD-123" carrying booking "b1",
with a signature matching `c1md5`. -/
def c1Notif : Payhere.PayHereNotification :=
  { merchant_id := "M"
    order_id := "ORD-123"
    payment_id := "P1"
    payhere_amount := "1000.00"
    payhere_currency := "LKR"
    status_code := "2"
    status_message := "ok"
    method := "VISA"
    md5sig := "AA"
    custom_1 := some "b1" }

/-- Initial payment database: booking "b1" confirmed, payment pending. -/
def c1DB : Payhere.PayDB :=
  { bookings := [{ id := "b1"
                   status := BookingStatus.CONFIRMED
                   paymentStatus := Payhere.PaymentStatus.PENDING }]
    auditLog := [] }

/-- Payment database with a booking still IN_PROGRESS whose payment is
held in escrow. -/
def c2DB : Payhere.PayDB :=
  { bookings := [{ id := "b1"
                   status := BookingStatus.IN_PROGRESS
                   paymentStatus := Payhere.PaymentStatus.HELD_IN_ESCROW }]
    auditLog := [] }

/-- Payment database whose booking's payment is still PENDING. -/
def c2PendingDB : Payhere.PayDB :=
  { bookings := [{ id := "b1"
                   status := BookingStatus.COMPLETED
                   paymentStatus := Payhere.PaymentStatus.PENDING }]
    auditLog := [] }

/-- Escalation database with a shift still PENDING. -/
def c4DB : Escalation.EscDB :=
  { shifts := [{ id := "s1"
                 status := BookingStatus.PENDING
                 locationAddress := "Galle Road"
                 emergencyPhone := none
                 cancellationReason := none }]
    auditLog := [] }

/-- Escalation request against the PENDING shift. -/
def c4Input : Escalation.EscalationInput :=
  { shiftId := "s1"
    triggeredBy := Escalation.Party.PROVIDER
    triggeredByUserId := "u1"
    reason := none }

/-- Metric for the rounding-tie scenario: distance 9000 m from the first
provider's position, 5000 m from the second's. -/
def c5dist : Matching.Pos → Matching.Pos → ℚ :=
  fun p _ => if p.1 = 0 then 9000 else 5000

/-- Provider with raw trust score 80.04, 9000 m away. -/
def c5rowA : Matching.ProviderRow :=
  { providerId := 1
    fullName := "A"
    role := Matching.Role.PROVIDER
    isActive := true
    serviceCategoryId := 7
    isVerified := true
    location := some (0, 0)
    skillTrustScore := 80.04
    yearsExperience := 5 }

/-- Provider with raw trust score 79.96, 5000 m away. -/
def c5rowB : Matching.ProviderRow :=
  { providerId := 2
    fullName := "B"
    role := Matching.Role.PROVIDER
    isActive := true
    serviceCategoryId := 7
    isVerified := true
    location := some (1, 0)
    skillTrustScore := 79.96
    yearsExperience := 3 }

/-- Metric for the radius-boundary scenario: distance is the provider's
first coordinate. -/
def c6dist : Matching.Pos → Matching.Pos → ℚ := fun p _ => p.1

/-- Eligible provider at exactly 10000 m. -/
def c6near : Matching.ProviderRow :=
  { providerId := 3
    fullName := "N"
    role := Matching.Role.PROVIDER
    isActive := true
    serviceCategoryId := 7
    isVerified := true
    location := some (10000, 0)
    skillTrustScore := 60
    yearsExperience := 2 }

/-- Otherwise-eligible provider at 10001 m. -/
def c6far : Matching.ProviderRow :=
  { providerId := 4
    fullName := "F"
    role := Matching.Role.PROVIDER
    isActive := true
    serviceCategoryId := 7
    isVerified := true
    location := some (10001, 0)
    skillTrustScore := 90
    yearsExperience := 9 }

/-- Trust database with two providers: provider 1 completed their single
booking, provider 2 did not complete theirs; provider 1 has a profile
with no recorded response time and no reviews or documents. -/
def c7DB : TrustScore.TrustDB :=
  { bookings := [{ providerId := 1, isCompleted := true },
                 { providerId := 2, isCompleted := false }]
    reviews := []
    verificationDocs := []
    profiles := [{ userId := 1, responseTimeMin := none }] }

/-- Trust database whose single review carries the out-of-range rating 6
while every other component is at its maximum. -/
def c8DB : TrustScore.TrustDB :=
  { bookings := [{ providerId := 1, isCompleted := true }]
    reviews := [{ targetId := 1, rating := 6 }]
    verificationDocs := [{ userId := 1, isVerified := true }]
    profiles := [{ userId := 1, responseTimeMin := some 10 }] }

/-- Trust database with all inputs in their nominal ranges (rating 4). -/
def c8nomDB : TrustScore.TrustDB :=
  { bookings := [{ providerId := 1, isCompleted := true }]
    reviews := [{ targetId := 1, rating := 4 }]
    verificationDocs := [{ userId := 1, isVerified := true }]
    profiles := [{ userId := 1, responseTimeMin := some 10 }] }

/-- Stand-in digest for the signature case-sensitivity scenario. -/
def c9md5 : String → String := fun _ => "AB"

/-- Notification whose supplied signature is the lowercase form of the
correct (uppercase) recomputed signature. -/
def c9Notif : Payhere.PayHereNotification :=
  { merchant_id := "M"
    order_id := "O1"
    payment_id := "P1"
    payhere_amount := "10.00"
    payhere_currency := "LKR"
    status_code := "2"
    status_message := "ok"
    method := "VISA"
    md5sig := "ab"
    custom_1 := some "b1" }

/-- Notification whose supplied signature matches nothing. -/
def c9BadNotif : Payhere.PayHereNotification :=
  { merchant_id := "M"
    order_id := "O1"
    payment_id := "P1"
    payhere_amount := "10.00"
    payhere_currency := "LKR"
    status_code := "2"
    status_message := "ok"
    method := "VISA"
    md5sig := "ZZ"
    custom_1 := some "b1" }

/-- Matching database for the geospatial-failure scenario: one active
customer and one active category. -/
def c10DB : Matching.MatchDB :=
  { users := [{ id := "u1", isActive := true, role := Matching.Role.CUSTOMER }]
    categories := [{ id := 7, slug := "elderly-companion", isActive := true }]
    bookings := [] }

/-- Booking request of the geospatial-failure scenario. -/
def c10Input : Matching.CreateBookingMatchInput :=
  { customerId := "u1"
    careRecipientName := "R"
    serviceCategorySlug := "elderly-companion"
    locationLat := 6
    locationLng := 79
    notes := none }

/-! Theorems. -/

namespace Payhere

/-- A successful `find?` on the booking id implies `any` on the same
predicate. -/
theorem any_id_of_find?_some {l : List BookingPayRecord} {bid : String}
    {b : BookingPayRecord} (h : l.find? (fun x => x.id == bid) = some b) :
    l.any (fun x => x.id == bid) = true := by
  have hmem : b ∈ l := List.mem_of_find?_eq_some h
  have hp : (b.id == bid) = true :=
    @List.find?_some _ (fun x => x.id == bid) b l h
  exact List.any_eq_true.mpr ⟨b, hmem, hp⟩

/-- Updating the payment status of booking `bid` commutes with looking the
booking up: the lookup afterwards returns the old record with the new
payment status. -/
theorem find?_update (l : List BookingPayRecord) (bid : String)
    (ps : PaymentStatus) :
    (l.map (fun x =>
        if x.id == bid then { x with paymentStatus := ps } else x)).find?
      (fun x => x.id == bid)
    = (l.find? (fun x => x.id == bid)).map
        (fun x => { x with paymentStatus := ps }) := by
  rw [List.find?_map]
  have hpred : ((fun x : BookingPayRecord => x.id == bid) ∘ fun x =>
      if x.id == bid then { x with paymentStatus := ps } else x)
      = fun x : BookingPayRecord => x.id == bid := by
    funext x
    by_cases h : x.id = bid
    · simp [h]
    · simp [h]
  rw [hpred]
  cases hfind : l.find? (fun x => x.id == bid) with
  | none => rfl
  | some b =>
    have hp : (b.id == bid) = true :=
      @List.find?_some _ (fun x => x.id == bid) b l hfind
    have hb : b.id = bid := by simpa using hp
    simp [hb]

/-- Characterization of `verifyPaymentNotification` by the (positively
stated) signature comparison. -/
theorem verify_cases (md5hex : String → String) (sec : String)
    (n : PayHereNotification) :
    verifyPaymentNotification md5hex sec n =
      (if strToUpper n.md5sig = strToUpper (generateNotificationHash md5hex
          n.merchant_id n.order_id n.payhere_amount n.payhere_currency
          n.status_code sec) then
        { valid := true
          status := mapStatusCode n.status_code
          orderId := n.order_id
          paymentId := n.payment_id
          amountStr := n.payhere_amount
          message := n.status_message }
      else
        { valid := false
          status := .FAILED
          orderId := n.order_id
          paymentId := n.payment_id
          amountStr := n.payhere_amount
          message := "Invalid signature - possible spoofing attempt" }) := by
  unfold verifyPaymentNotification
  by_cases h : strToUpper n.md5sig = strToUpper (generateNotificationHash
      md5hex n.merchant_id n.order_id n.payhere_amount n.payhere_currency
      n.status_code sec)
  · simp [h]
  · simp [h]

end Payhere

/-- The `round` function is monotone (round-half-up on a linear ordered
field). -/
theorem round_monotone {x y : ℚ} (h : x ≤ y) : round x ≤ round y := by
  rw [round_eq, round_eq]
  exact Int.floor_mono (by linarith)

/-- C3: for every gross amount ≥ 0.01, `calculatePaymentBreakdown` returns
`platformFee = round(grossAmount × 0.10)` rounded to the cent with the
round-half-up rule, the exact identity `platformFee + providerPayout =
grossAmount` holds, and the rounding drift of the fee from the exact 10%
is at most half a cent (hence below the smallest currency unit).  The
split is a pure function of the gross amount, hence deterministic. -/
theorem calculatePaymentBreakdown_exact_split (q : ℚ) (hq : 1 / 100 ≤ q) :
    (Payhere.calculatePaymentBreakdown q).platformFee
        + (Payhere.calculatePaymentBreakdown q).providerPayout = q
    ∧ (Payhere.calculatePaymentBreakdown q).platformFee
        = (round (q * 10) : ℚ) / 100
    ∧ |(Payhere.calculatePaymentBreakdown q).platformFee - q * (10 / 100)|
        ≤ 1 / 200 := by
  refine ⟨by simp [Payhere.calculatePaymentBreakdown], ?_, ?_⟩
  · simp only [Payhere.calculatePaymentBreakdown, Payhere.PLATFORM_FEE_PERCENTAGE]
    norm_num
    congr 2
    ring_nf
  · simp only [Payhere.calculatePaymentBreakdown, Payhere.PLATFORM_FEE_PERCENTAGE]
    have harg : q * (10 / 100) * 100 = q * 10 := by ring
    rw [harg]
    have h1 : |q * 10 - (round (q * 10) : ℚ)| ≤ 1 / 2 := abs_sub_round (q * 10)
    have h2 : (round (q * 10) : ℚ) / 100 - q * (10 / 100)
        = -((q * 10 - (round (q * 10) : ℚ)) / 100) := by ring
    rw [h2, abs_neg, abs_div]
    have : |(100 : ℚ)| = 100 := by norm_num
    rw [this]
    linarith

/-- Witness for C3 at the spec's worked example: gross 1000.00 LKR splits
into fee 100.00 and payout 900.00. -/
theorem calculatePaymentBreakdown_exact_split_witness :
    ((1 : ℚ) / 100 ≤ 1000)
    ∧ ((Payhere.calculatePaymentBreakdown 1000).platformFee
          + (Payhere.calculatePaymentBreakdown 1000).providerPayout = 1000
      ∧ (Payhere.calculatePaymentBreakdown 1000).platformFee
          = (round ((1000 : ℚ) * 10) : ℚ) / 100
      ∧ |(Payhere.calculatePaymentBreakdown 1000).platformFee
          - 1000 * (10 / 100)| ≤ 1 / 200) :=
  ⟨by norm_num, calculatePaymentBreakdown_exact_split 1000 (by norm_num)⟩

/-- C2 (counterexample): with booking "b1" still IN_PROGRESS and its
payment HELD_IN_ESCROW, `releaseEscrowPayment` succeeds and moves the
payment to RELEASED — the booking lifecycle status is never consulted,
contradicting the claim that release fails unless the booking is
COMPLETED. -/
theorem releaseEscrow_ignores_lifecycle_cex :
    (Payhere.releaseEscrowPayment c2DB "b1").2 = .ok ()
    ∧ Payhere.findBooking (Payhere.releaseEscrowPayment c2DB "b1").1 "b1"
        = some { id := "b1"
                 status := BookingStatus.IN_PROGRESS
                 paymentStatus := Payhere.PaymentStatus.RELEASED }
    ∧ BookingStatus.IN_PROGRESS ≠ BookingStatus.COMPLETED := by
  decide

/-- C2 (amended): `releaseEscrowPayment` is guarded by the payment status
alone: it fails with the distinct booking-not-found error when the
booking is missing, fails with the distinct cannot-release error (leaving
the database byte-for-byte unchanged) whenever the payment status is not
HELD_IN_ESCROW, and succeeds — regardless of the booking lifecycle
status — whenever the payment status is HELD_IN_ESCROW, setting it to
RELEASED. -/
theorem releaseEscrowPayment_payment_status_guard (db : Payhere.PayDB)
    (bid : String) :
    (Payhere.findBooking db bid = none →
      Payhere.releaseEscrowPayment db bid
        = (db, .error (.BookingNotFound bid)))
    ∧ (∀ b, Payhere.findBooking db bid = some b →
        b.paymentStatus ≠ Payhere.PaymentStatus.HELD_IN_ESCROW →
        Payhere.releaseEscrowPayment db bid
          = (db, .error (.CannotRelease b.paymentStatus)))
    ∧ (∀ b, Payhere.findBooking db bid = some b →
        b.paymentStatus = Payhere.PaymentStatus.HELD_IN_ESCROW →
        (Payhere.releaseEscrowPayment db bid).2 = .ok ()
        ∧ Payhere.findBooking (Payhere.releaseEscrowPayment db bid).1 bid
            = some { b with paymentStatus := Payhere.PaymentStatus.RELEASED }) := by
  refine ⟨?_, ?_, ?_⟩
  · intro h
    simp only [Payhere.releaseEscrowPayment, h]
  · intro b hb hps
    simp only [Payhere.releaseEscrowPayment, hb]
    rw [if_pos hps]
  · intro b hb hps
    have hb' : db.bookings.find? (fun x => x.id == bid) = some b := hb
    have hany : db.bookings.any (fun x => x.id == bid) = true :=
      Payhere.any_id_of_find?_some hb'
    simp only [Payhere.releaseEscrowPayment, hb]
    rw [if_neg (by simp [hps])]
    simp only [Payhere.updatePaymentStatus, hany, if_true]
    constructor
    · trivial
    · show (db.bookings.map _).find? _ = _
      rw [Payhere.find?_update, hb']
      rfl

/-- Witness for C2's amended theorem: a PENDING payment cannot be
released, the database is unchanged, and the error names the current
status. -/
theorem releaseEscrowPayment_payment_status_guard_witness :
    Payhere.releaseEscrowPayment c2PendingDB "b1"
      = (c2PendingDB,
         .error (.CannotRelease Payhere.PaymentStatus.PENDING)) :=
  (releaseEscrowPayment_payment_status_guard c2PendingDB "b1").2.1
    { id := "b1"
      status := BookingStatus.COMPLETED
      paymentStatus := Payhere.PaymentStatus.PENDING }
    (by decide) (by decide)

/-- C4: `escalateEmergency` fails with the distinct shift-not-found error
when the booking is missing, and with the distinct invalid-status error —
leaving the database unchanged, so the booking is not frozen to DISPUTED
and no incident (audit) row is recorded — whenever the booking's status
is PENDING, COMPLETED, CANCELLED or DISPUTED; the two errors are always
distinguishable. -/
theorem escalateEmergency_requires_active_status (smsOk : Bool)
    (db : Escalation.EscDB) (input : Escalation.EscalationInput) :
    (db.shifts.find? (fun s => s.id == input.shiftId) = none →
      Escalation.escalateEmergency smsOk db input
        = (db, .error (.ShiftNotFound input.shiftId)))
    ∧ (∀ shift, db.shifts.find? (fun s => s.id == input.shiftId) = some shift →
        (shift.status = BookingStatus.PENDING
          ∨ shift.status = BookingStatus.COMPLETED
          ∨ shift.status = BookingStatus.CANCELLED
          ∨ shift.status = BookingStatus.DISPUTED) →
        Escalation.escalateEmergency smsOk db input
          = (db, .error (.InvalidStatusForEscalation shift.status)))
    ∧ (∀ i s, Escalation.EscErr.ShiftNotFound i
        ≠ Escalation.EscErr.InvalidStatusForEscalation s) := by
  refine ⟨?_, ?_, ?_⟩
  · intro h
    simp only [Escalation.escalateEmergency, h]
  · intro shift hs hbad
    simp only [Escalation.escalateEmergency, hs]
    rw [if_neg (by rcases hbad with h | h | h | h <;> rw [h] <;> decide)]
  · intro i s h
    exact Escalation.EscErr.noConfusion h

/-- Witness for C4 at the spec's scenario 4: escalation against a PENDING
booking fails with the invalid-status error and records nothing. -/
theorem escalateEmergency_requires_active_status_witness :
    Escalation.escalateEmergency true c4DB c4Input
      = (c4DB, .error (.InvalidStatusForEscalation BookingStatus.PENDING)) :=
  (escalateEmergency_requires_active_status true c4DB c4Input).2.1
    { id := "s1"
      status := BookingStatus.PENDING
      locationAddress := "Galle Road"
      emergencyPhone := none
      cancellationReason := none }
    (by decide) (Or.inl rfl)

/-- C9 (counterexample): a notification whose supplied signature is the
lowercase form of the recomputed (uppercase) signature differs from it
byte-for-byte yet passes verification — the comparison uppercases both
sides, so it is case-insensitive, not byte-for-byte. -/
theorem verifyPaymentNotification_not_byte_exact_cex :
    (Payhere.verifyPaymentNotification c9md5 "S" c9Notif).valid = true
    ∧ c9Notif.md5sig
        ≠ Payhere.generateNotificationHash c9md5 c9Notif.merchant_id
            c9Notif.order_id c9Notif.payhere_amount c9Notif.payhere_currency
            c9Notif.status_code "S" := by
  decide

/-- C9 (amended): verification accepts exactly when the uppercased
supplied signature equals the uppercased recomputed signature
(case-insensitive comparison), and `handlePaymentNotification` performs
no write at all — the database is returned unchanged with the distinct
invalid-signature error — whenever verification fails. -/
theorem verifyPaymentNotification_case_insensitive_guard
    (md5hex : String → String) (sec : String)
    (n : Payhere.PayHereNotification) :
    ((Payhere.verifyPaymentNotification md5hex sec n).valid = true
      ↔ strToUpper n.md5sig
          = strToUpper (Payhere.generateNotificationHash md5hex n.merchant_id
              n.order_id n.payhere_amount n.payhere_currency n.status_code
              sec))
    ∧ (∀ db : Payhere.PayDB,
        (Payhere.verifyPaymentNotification md5hex sec n).valid = false →
        Payhere.handlePaymentNotification md5hex sec db n
          = (db, .error Payhere.PayErr.InvalidSignature)) := by
  constructor
  · rw [Payhere.verify_cases]
    by_cases h : strToUpper n.md5sig
        = strToUpper (Payhere.generateNotificationHash md5hex n.merchant_id
            n.order_id n.payhere_amount n.payhere_currency n.status_code sec)
    · simp [h]
    · simp [h]
  · intro db hv
    simp [Payhere.handlePaymentNotification, hv]

/-- Witness for C9's amended theorem: a wrong signature leaves an empty
database untouched and yields the invalid-signature error. -/
theorem verifyPaymentNotification_case_insensitive_guard_witness :
    Payhere.handlePaymentNotification c9md5 "S"
        { bookings := [], auditLog := [] } c9BadNotif
      = ({ bookings := [], auditLog := [] },
         .error Payhere.PayErr.InvalidSignature) :=
  (verifyPaymentNotification_case_insensitive_guard c9md5 "S" c9BadNotif).2
    { bookings := [], auditLog := [] } (by decide)

/-- One successful SUCCESS-notification delivery: with a matching
signature, status code mapping to SUCCESS and the booking present,
`handlePaymentNotification` succeeds, sets the booking's payment status
to HELD_IN_ESCROW, and appends exactly one audit-log entry.  No branch of
the function consults the booking's current payment status or any
previously processed order reference. -/
theorem handle_success_step (md5hex : String → String) (sec : String)
    (db : Payhere.PayDB) (n : Payhere.PayHereNotification) (bid : String)
    (b : Payhere.BookingPayRecord)
    (hsig : strToUpper n.md5sig
      = strToUpper (Payhere.generateNotificationHash md5hex n.merchant_id
          n.order_id n.payhere_amount n.payhere_currency n.status_code sec))
    (hcode : Payhere.mapStatusCode n.status_code = Payhere.VerStatus.SUCCESS)
    (hc1 : n.custom_1 = some bid)
    (hfind : Payhere.findBooking db bid = some b) :
    (Payhere.handlePaymentNotification md5hex sec db n).2 = .ok ()
    ∧ Payhere.findBooking
        (Payhere.handlePaymentNotification md5hex sec db n).1 bid
        = some { b with paymentStatus := Payhere.PaymentStatus.HELD_IN_ESCROW }
    ∧ (Payhere.handlePaymentNotification md5hex sec db n).1.auditLog.length
        = db.auditLog.length + 1 := by
  have hv : Payhere.verifyPaymentNotification md5hex sec n
      = { valid := true
          status := Payhere.VerStatus.SUCCESS
          orderId := n.order_id
          paymentId := n.payment_id
          amountStr := n.payhere_amount
          message := n.status_message } := by
    rw [Payhere.verify_cases, if_pos hsig, hcode]
  have hfind' : db.bookings.find? (fun x => x.id == bid) = some b := hfind
  have hany1 : db.bookings.any (fun x => x.id == bid) = true :=
    Payhere.any_id_of_find?_some hfind'
  have hfind1 : (db.bookings.map (fun x =>
      if x.id == bid then
        { x with paymentStatus := Payhere.PaymentStatus.HELD_IN_ESCROW }
      else x)).find? (fun x => x.id == bid)
      = some { b with paymentStatus := Payhere.PaymentStatus.HELD_IN_ESCROW } := by
    rw [Payhere.find?_update, hfind']
    rfl
  have hany2 : (db.bookings.map (fun x =>
      if x.id == bid then
        { x with paymentStatus := Payhere.PaymentStatus.HELD_IN_ESCROW }
      else x)).any (fun x => x.id == bid) = true :=
    Payhere.any_id_of_find?_some hfind1
  simp only [Payhere.handlePaymentNotification, hv, hc1,
    Payhere.mapToPrismaPaymentStatus, Payhere.updatePaymentStatus, hany1,
    if_true]
  simp only [hany2, if_true]
  refine ⟨rfl, ?_, by simp⟩
  show ((db.bookings.map _).map _).find? _ = _
  rw [Payhere.find?_update, hfind1]
  rfl

/-- C1 (counterexample): delivering the same SUCCESS notification (order
"ORD-123") twice is NOT detected as a duplicate and discarded: the second
delivery succeeds as well and changes the stored state again (a second
audit-log entry), so the state after the second delivery differs from the
state after the first instead of being left unchanged. -/
theorem handlePaymentNotification_duplicate_cex :
    (Payhere.handlePaymentNotification c1md5 "S" c1DB c1Notif).2 = .ok ()
    ∧ (Payhere.handlePaymentNotification c1md5 "S"
        (Payhere.handlePaymentNotification c1md5 "S" c1DB c1Notif).1
        c1Notif).2 = .ok ()
    ∧ (Payhere.handlePaymentNotification c1md5 "S"
        (Payhere.handlePaymentNotification c1md5 "S" c1DB c1Notif).1
        c1Notif).1
      ≠ (Payhere.handlePaymentNotification c1md5 "S" c1DB c1Notif).1
    ∧ (Payhere.handlePaymentNotification c1md5 "S" c1DB
        c1Notif).1.auditLog.length = 1
    ∧ (Payhere.handlePaymentNotification c1md5 "S"
        (Payhere.handlePaymentNotification c1md5 "S" c1DB c1Notif).1
        c1Notif).1.auditLog.length = 2 := by
  decide

/-- C1 (amended): `handlePaymentNotification` performs no duplicate
detection.  A second delivery of the same valid SUCCESS notification is
processed again in full: it succeeds, unconditionally re-applies the
HELD_IN_ESCROW update (so the payment-status field, already
HELD_IN_ESCROW after the first delivery, carries the same value), and
appends a second audit-log entry — the ledger's status field alone is
idempotent, the delivery itself is not discarded. -/
theorem handlePaymentNotification_reapplies_duplicates
    (md5hex : String → String) (sec : String) (db : Payhere.PayDB)
    (n : Payhere.PayHereNotification) (bid : String)
    (b : Payhere.BookingPayRecord)
    (hsig : strToUpper n.md5sig
      = strToUpper (Payhere.generateNotificationHash md5hex n.merchant_id
          n.order_id n.payhere_amount n.payhere_currency n.status_code sec))
    (hcode : Payhere.mapStatusCode n.status_code = Payhere.VerStatus.SUCCESS)
    (hc1 : n.custom_1 = some bid)
    (hfind : Payhere.findBooking db bid = some b) :
    (Payhere.handlePaymentNotification md5hex sec db n).2 = .ok ()
    ∧ (Payhere.handlePaymentNotification md5hex sec
        (Payhere.handlePaymentNotification md5hex sec db n).1 n).2 = .ok ()
    ∧ Payhere.findBooking
        (Payhere.handlePaymentNotification md5hex sec db n).1 bid
        = some { b with paymentStatus := Payhere.PaymentStatus.HELD_IN_ESCROW }
    ∧ Payhere.findBooking
        (Payhere.handlePaymentNotification md5hex sec
          (Payhere.handlePaymentNotification md5hex sec db n).1 n).1 bid
        = some { b with paymentStatus := Payhere.PaymentStatus.HELD_IN_ESCROW }
    ∧ (Payhere.handlePaymentNotification md5hex sec db n).1.auditLog.length
        = db.auditLog.length + 1
    ∧ (Payhere.handlePaymentNotification md5hex sec
        (Payhere.handlePaymentNotification md5hex sec db n).1
        n).1.auditLog.length
        = db.auditLog.length + 2 := by
  obtain ⟨o1, f1, l1⟩ :=
    handle_success_step md5hex sec db n bid b hsig hcode hc1 hfind
  obtain ⟨o2, f2, l2⟩ := handle_success_step md5hex sec
    (Payhere.handlePaymentNotification md5hex sec db n).1 n bid
    { b with paymentStatus := Payhere.PaymentStatus.HELD_IN_ESCROW }
    hsig hcode hc1 f1
  refine ⟨o1, o2, f1, f2, l1, ?_⟩
  rw [l2, l1]

/-- Witness for C1's amended theorem at the concrete duplicate-delivery
scenario. -/
theorem handlePaymentNotification_reapplies_duplicates_witness :
    (Payhere.handlePaymentNotification c1md5 "S" c1DB c1Notif).2 = .ok ()
    ∧ (Payhere.handlePaymentNotification c1md5 "S"
        (Payhere.handlePaymentNotification c1md5 "S" c1DB c1Notif).1
        c1Notif).2 = .ok ()
    ∧ Payhere.findBooking
        (Payhere.handlePaymentNotification c1md5 "S" c1DB c1Notif).1 "b1"
        = some { id := "b1"
                 status := BookingStatus.CONFIRMED
                 paymentStatus := Payhere.PaymentStatus.HELD_IN_ESCROW }
    ∧ Payhere.findBooking
        (Payhere.handlePaymentNotification c1md5 "S"
          (Payhere.handlePaymentNotification c1md5 "S" c1DB c1Notif).1
          c1Notif).1 "b1"
        = some { id := "b1"
                 status := BookingStatus.CONFIRMED
                 paymentStatus := Payhere.PaymentStatus.HELD_IN_ESCROW }
    ∧ (Payhere.handlePaymentNotification c1md5 "S" c1DB
        c1Notif).1.auditLog.length = c1DB.auditLog.length + 1
    ∧ (Payhere.handlePaymentNotification c1md5 "S"
        (Payhere.handlePaymentNotification c1md5 "S" c1DB c1Notif).1
        c1Notif).1.auditLog.length = c1DB.auditLog.length + 2 :=
  handlePaymentNotification_reapplies_duplicates c1md5 "S" c1DB c1Notif
    "b1"
    { id := "b1"
      status := BookingStatus.CONFIRMED
      paymentStatus := Payhere.PaymentStatus.PENDING }
    (by decide) (by decide) (by decide) (by decide)

/-- C10: when the customer exists and is active and the service category
exists and is active, `createBookingAndFindMatches` first persists the
booking with PENDING status, and a failing geospatial query then yields
the distinct `GeospatialQueryError` while the created booking remains in
the returned database — booking creation is not atomic with provider
matching and is not rolled back. -/
theorem createBooking_persists_on_geo_failure
    (dist : Matching.Pos → Matching.Pos → ℚ)
    (provs : List Matching.ProviderRow) (db : Matching.MatchDB)
    (input : Matching.CreateBookingMatchInput) (u : Matching.UserRec)
    (c : Matching.CategoryRec)
    (hu : db.users.find? (fun x => x.id == input.customerId) = some u)
    (hua : u.isActive = true)
    (hc : db.categories.find?
        (fun x => x.slug == input.serviceCategorySlug) = some c)
    (hca : c.isActive = true) :
    Matching.createBookingAndFindMatches dist provs true db input
      = ({ db with bookings := db.bookings ++ [Matching.mkBooking input c.id] },
         .error Matching.MatchErr.GeospatialQueryFailed)
    ∧ Matching.mkBooking input c.id
        ∈ (Matching.createBookingAndFindMatches dist provs true db input).1.bookings
    ∧ (Matching.mkBooking input c.id).status = BookingStatus.PENDING := by
  have hres : Matching.createBookingAndFindMatches dist provs true db input
      = ({ db with bookings := db.bookings ++ [Matching.mkBooking input c.id] },
         .error Matching.MatchErr.GeospatialQueryFailed) := by
    simp [Matching.createBookingAndFindMatches, hu, hua, hc, hca]
  refine ⟨hres, ?_, rfl⟩
  rw [hres]
  simp

/-- Witness for C10 at a concrete database: the PENDING booking survives
the geospatial failure. -/
theorem createBooking_persists_on_geo_failure_witness :
    Matching.createBookingAndFindMatches c6dist [] true c10DB c10Input
      = ({ c10DB with
            bookings := c10DB.bookings ++ [Matching.mkBooking c10Input 7] },
         .error Matching.MatchErr.GeospatialQueryFailed)
    ∧ Matching.mkBooking c10Input 7
        ∈ (Matching.createBookingAndFindMatches c6dist [] true c10DB
            c10Input).1.bookings
    ∧ (Matching.mkBooking c10Input 7).status = BookingStatus.PENDING :=
  createBooking_persists_on_geo_failure c6dist [] c10DB c10Input
    { id := "u1", isActive := true, role := Matching.Role.CUSTOMER }
    { id := 7, slug := "elderly-companion", isActive := true }
    (by decide) (by decide) (by decide) (by decide)

/-- `round1` (round half up to one decimal) is monotone. -/
theorem round1_mono {x y : ℚ} (h : x ≤ y) :
    Matching.round1 x ≤ Matching.round1 y := by
  unfold Matching.round1
  have hr : round (x * 10) ≤ round (y * 10) := round_monotone (by linarith)
  have hr' : ((round (x * 10) : ℤ) : ℚ) ≤ ((round (y * 10) : ℤ) : ℚ) := by
    exact_mod_cast hr
  linarith

/-- C5 (amended): the matcher's output always has at most
`MAX_PROVIDERS = 50` entries; the rows selected by the query are pairwise
ordered by raw trust score descending with distance ascending breaking
exact raw-score ties; consequently the returned (rounded) trust scores
are non-increasing.  (Adjacent candidates whose ROUNDED trust scores tie
need not have non-decreasing distances, because the tie-break applies to
the raw scores — see the counterexample.) -/
theorem findMatchingProviders_ordering (dist : Matching.Pos → Matching.Pos → ℚ)
    (providers : List Matching.ProviderRow) (catId : Nat) (q : Matching.Pos) :
    (Matching.findMatchingProviders dist providers catId q
        Matching.SEARCH_RADIUS_METERS Matching.MAX_PROVIDERS).length ≤ 50
    ∧ List.Pairwise
        (fun a b : Matching.MatchedProvider => b.trustScore ≤ a.trustScore)
        (Matching.findMatchingProviders dist providers catId q
          Matching.SEARCH_RADIUS_METERS Matching.MAX_PROVIDERS)
    ∧ List.Pairwise Matching.candLE
        (Matching.matchRows dist providers catId q
          Matching.SEARCH_RADIUS_METERS Matching.MAX_PROVIDERS) := by
  have hsorted : List.Pairwise Matching.candLE
      (List.insertionSort Matching.candLE
        (providers.filterMap (Matching.rankRow dist catId q
          Matching.SEARCH_RADIUS_METERS))) :=
    List.sorted_insertionSort Matching.candLE _
  have htake : List.Pairwise Matching.candLE
      (Matching.matchRows dist providers catId q
        Matching.SEARCH_RADIUS_METERS Matching.MAX_PROVIDERS) :=
    List.Pairwise.sublist (List.take_sublist _ _) hsorted
  refine ⟨?_, ?_, htake⟩
  · show ((Matching.matchRows dist providers catId q _ _).map _).length ≤ 50
    rw [List.length_map]
    calc (Matching.matchRows dist providers catId q
          Matching.SEARCH_RADIUS_METERS Matching.MAX_PROVIDERS).length
        ≤ Matching.MAX_PROVIDERS := List.length_take_le _ _
      _ = 50 := rfl
  · exact htake.map Matching.toMatchedProvider (fun a b hab => by
      rcases hab with h | ⟨h, _⟩
      · exact round1_mono (le_of_lt h)
      · exact le_of_eq (congrArg Matching.round1 h.symm))

/-- C5 (counterexample): providers with raw trust scores 80.04 (9000 m)
and 79.96 (5000 m) both display a rounded trust score of 80.0, yet the
farther one is listed first (raw-score order), so the returned list has
an adjacent pair with equal trust score and strictly decreasing
distance — the claim that every adjacent equal-trust pair has
non-decreasing distance fails on the returned (rounded) scores. -/
theorem findMatchingProviders_rounded_tie_cex :
    Matching.findMatchingProviders c5dist [c5rowA, c5rowB] 7 (0, 0)
        Matching.SEARCH_RADIUS_METERS Matching.MAX_PROVIDERS
      = [{ providerId := 1, fullName := "A", trustScore := 80,
           yearsExperience := 5, distanceKm := 9 },
         { providerId := 2, fullName := "B", trustScore := 80,
           yearsExperience := 3, distanceKm := 5 }]
    ∧ (5 : ℚ) < 9 := by
  have hA : Matching.rankRow c5dist 7 (0, 0) Matching.SEARCH_RADIUS_METERS
      c5rowA = some { row := c5rowA, distanceMeters := 9000 } := by
    norm_num [Matching.rankRow, c5rowA, c5dist, Matching.SEARCH_RADIUS_METERS]
  have hB : Matching.rankRow c5dist 7 (0, 0) Matching.SEARCH_RADIUS_METERS
      c5rowB = some { row := c5rowB, distanceMeters := 5000 } := by
    norm_num [Matching.rankRow, c5rowB, c5dist, Matching.SEARCH_RADIUS_METERS]
  have hle : Matching.candLE { row := c5rowA, distanceMeters := 9000 }
      { row := c5rowB, distanceMeters := 5000 } := by
    left
    norm_num [c5rowA, c5rowB]
  constructor
  · show ((List.insertionSort Matching.candLE
        (List.filterMap _ [c5rowA, c5rowB])).take
          Matching.MAX_PROVIDERS).map _ = _
    rw [List.filterMap_cons, hA, List.filterMap_cons, hB,
      List.filterMap_nil]
    rw [show List.insertionSort Matching.candLE
        [{ row := c5rowA, distanceMeters := 9000 },
         { row := c5rowB, distanceMeters := 5000 }]
      = [{ row := c5rowA, distanceMeters := 9000 },
         { row := c5rowB, distanceMeters := 5000 }] from by
      simp [List.insertionSort, List.orderedInsert, if_pos hle]]
    show [Matching.toMatchedProvider _, Matching.toMatchedProvider _] = _
    rw [Matching.toMatchedProvider, Matching.toMatchedProvider]
    norm_num [Matching.round1, round_eq, c5rowA, c5rowB]
  · norm_num


/-- `rankRow` on a row with a known (non-null) location reduces to the
eligibility test. -/
theorem rankRow_some_loc (dist : Matching.Pos → Matching.Pos → ℚ)
    (catId : Nat) (q : Matching.Pos) (radius : ℚ)
    (r : Matching.ProviderRow) (p : Matching.Pos)
    (hloc : r.location = some p) :
    Matching.rankRow dist catId q radius r
      = (if r.role = Matching.Role.PROVIDER ∧ r.isActive = true
            ∧ r.serviceCategoryId = catId ∧ r.isVerified = true
            ∧ dist p q ≤ radius then
          some { row := r, distanceMeters := dist p q }
        else none) := by
  rw [Matching.rankRow, hloc]

/-- C6: every candidate the matcher returns comes from a provider row
passing all eligibility filters — provider role, active account, verified
skill-grant for the requested category, non-null position, and distance
at most 10000 m (inclusive: the boundary predicate is exactly
`dist ≤ 10000`, so a provider at 10000 m passes and one at 10001 m does
not); and when no provider passes the filter the result is the empty
list, not an error. -/
theorem findMatchingProviders_filter_sound
    (dist : Matching.Pos → Matching.Pos → ℚ)
    (providers : List Matching.ProviderRow) (catId : Nat)
    (q : Matching.Pos) :
    (∀ m ∈ Matching.findMatchingProviders dist providers catId q
        Matching.SEARCH_RADIUS_METERS Matching.MAX_PROVIDERS,
      ∃ r ∈ providers, ∃ p : Matching.Pos,
        r.role = Matching.Role.PROVIDER ∧ r.isActive = true
        ∧ r.serviceCategoryId = catId ∧ r.isVerified = true
        ∧ r.location = some p ∧ dist p q ≤ 10000
        ∧ m = Matching.toMatchedProvider { row := r, distanceMeters := dist p q })
    ∧ ((∀ r ∈ providers,
          Matching.rankRow dist catId q Matching.SEARCH_RADIUS_METERS r
            = none) →
        Matching.findMatchingProviders dist providers catId q
          Matching.SEARCH_RADIUS_METERS Matching.MAX_PROVIDERS = [])
    ∧ (∀ r : Matching.ProviderRow, ∀ p : Matching.Pos,
        r.location = some p → r.role = Matching.Role.PROVIDER →
        r.isActive = true → r.serviceCategoryId = catId →
        r.isVerified = true →
        ((Matching.rankRow dist catId q Matching.SEARCH_RADIUS_METERS
            r).isSome ↔ dist p q ≤ 10000)) := by
  refine ⟨?_, ?_, ?_⟩
  · intro m hm
    obtain ⟨rk, hrk, hmeq⟩ := List.mem_map.mp hm
    have hrk1 : rk ∈ List.insertionSort Matching.candLE
        (providers.filterMap (Matching.rankRow dist catId q
          Matching.SEARCH_RADIUS_METERS)) := List.mem_of_mem_take hrk
    have hrk2 : rk ∈ providers.filterMap (Matching.rankRow dist catId q
        Matching.SEARCH_RADIUS_METERS) :=
      ((List.perm_insertionSort Matching.candLE _).mem_iff).mp hrk1
    obtain ⟨r, hrmem, hfr⟩ := List.mem_filterMap.mp hrk2
    refine ⟨r, hrmem, ?_⟩
    cases hloc : r.location with
    | none =>
      rw [Matching.rankRow, hloc] at hfr
      exact absurd hfr (by simp)
    | some p =>
      rw [rankRow_some_loc dist catId q _ r p hloc] at hfr
      by_cases hcond : r.role = Matching.Role.PROVIDER ∧ r.isActive = true
          ∧ r.serviceCategoryId = catId ∧ r.isVerified = true
          ∧ dist p q ≤ Matching.SEARCH_RADIUS_METERS
      · rw [if_pos hcond] at hfr
        obtain ⟨h1, h2, h3, h4, h5⟩ := hcond
        refine ⟨p, h1, h2, h3, h4, rfl, ?_, ?_⟩
        · simpa [Matching.SEARCH_RADIUS_METERS] using h5
        · rw [← hmeq, Option.some_inj.mp hfr]
      · rw [if_neg hcond] at hfr
        exact absurd hfr (by simp)
  · intro h
    show ((List.insertionSort Matching.candLE _).take _).map _ = _
    rw [List.filterMap_eq_nil_iff.mpr h]
    rfl
  · intro r p hloc h1 h2 h3 h4
    rw [rankRow_some_loc dist catId q _ r p hloc]
    constructor
    · intro hs
      by_contra hd
      rw [if_neg (fun hcond =>
        hd (by simpa [Matching.SEARCH_RADIUS_METERS] using hcond.2.2.2.2))]
        at hs
      simp at hs
    · intro hd
      rw [if_pos ⟨h1, h2, h3, h4, by
        simpa [Matching.SEARCH_RADIUS_METERS] using hd⟩]
      rfl

/-- Witness for C6 at the radius boundary: the provider at exactly
10000 m is returned (and satisfies every filter), and the inclusion
predicate evaluates to distance ≤ 10000 for both the 10000 m and the
10001 m provider (true for the former, false for the latter). -/
theorem findMatchingProviders_filter_sound_witness :
    (∃ r ∈ [c6near, c6far], ∃ p : Matching.Pos,
        r.role = Matching.Role.PROVIDER ∧ r.isActive = true
        ∧ r.serviceCategoryId = 7 ∧ r.isVerified = true
        ∧ r.location = some p ∧ c6dist p (0, 0) ≤ 10000
        ∧ Matching.toMatchedProvider { row := c6near, distanceMeters := 10000 }
            = Matching.toMatchedProvider
                { row := r, distanceMeters := c6dist p (0, 0) })
    ∧ ((Matching.rankRow c6dist 7 (0, 0) Matching.SEARCH_RADIUS_METERS
          c6near).isSome ↔ c6dist (10000, 0) (0, 0) ≤ 10000)
    ∧ ((Matching.rankRow c6dist 7 (0, 0) Matching.SEARCH_RADIUS_METERS
          c6far).isSome ↔ c6dist (10001, 0) (0, 0) ≤ 10000) := by
  have hN : Matching.rankRow c6dist 7 (0, 0) Matching.SEARCH_RADIUS_METERS
      c6near = some { row := c6near, distanceMeters := 10000 } := by
    norm_num [Matching.rankRow, c6near, c6dist, Matching.SEARCH_RADIUS_METERS]
  have hF : Matching.rankRow c6dist 7 (0, 0) Matching.SEARCH_RADIUS_METERS
      c6far = none := by
    norm_num [Matching.rankRow, c6far, c6dist, Matching.SEARCH_RADIUS_METERS]
  have hout : Matching.findMatchingProviders c6dist [c6near, c6far] 7 (0, 0)
      Matching.SEARCH_RADIUS_METERS Matching.MAX_PROVIDERS
      = [Matching.toMatchedProvider { row := c6near, distanceMeters := 10000 }] := by
    show ((List.insertionSort Matching.candLE
        (List.filterMap _ [c6near, c6far])).take Matching.MAX_PROVIDERS).map _
      = _
    rw [List.filterMap_cons, hN, List.filterMap_cons, hF, List.filterMap_nil]
    simp [List.insertionSort, List.orderedInsert, Matching.MAX_PROVIDERS]
  refine ⟨?_, ?_, ?_⟩
  · exact (findMatchingProviders_filter_sound c6dist [c6near, c6far]
      7 (0, 0)).1
      (Matching.toMatchedProvider { row := c6near, distanceMeters := 10000 })
      (by rw [hout]; exact List.mem_singleton_self _)
  · exact (findMatchingProviders_filter_sound c6dist [c6near, c6far]
      7 (0, 0)).2.2 c6near (10000, 0) rfl rfl rfl rfl rfl
  · exact (findMatchingProviders_filter_sound c6dist [c6near, c6far]
      7 (0, 0)).2.2 c6far (10001, 0) rfl rfl rfl rfl rfl

/-- C7: evaluating the migration's `calculate_provider_trust_score` at a
database where provider 1 completed their only booking and provider 2 did
not complete theirs.  The claimed completion component for provider 1 is
100 (their own 1/1 completed), giving score 45; the function as written
computes the completion rate over ALL bookings (its `WHERE provider_id =
provider_id` clause compares the `bookings.provider_id` column with
itself because the PL/pgSQL parameter shadows the column), giving 50 and
score 25.  The two disagree. -/
theorem trust_score_completion_rate_bug :
    TrustScore.calculate_provider_trust_score c7DB 1 = some 25
    ∧ TrustScore.trustScoreIntended c7DB 1 = some 45
    ∧ TrustScore.calculate_provider_trust_score c7DB 1
        ≠ TrustScore.trustScoreIntended c7DB 1 := by
  have h1 : TrustScore.calculate_provider_trust_score c7DB 1 = some 25 := by
    norm_num [TrustScore.calculate_provider_trust_score,
      TrustScore.completionRateAsWritten, TrustScore.avgRatingComponent,
      TrustScore.verificationComponent, TrustScore.responseScore, c7DB]
  have h2 : TrustScore.trustScoreIntended c7DB 1 = some 45 := by
    norm_num [TrustScore.trustScoreIntended,
      TrustScore.completionRateIntended, TrustScore.avgRatingComponent,
      TrustScore.verificationComponent, TrustScore.responseScore, c7DB]
  refine ⟨h1, h2, ?_⟩
  rw [h1, h2]
  norm_num

/-- C8 (counterexample): with an out-of-range rating of 6 and every other
component at its maximum, the computed trust score is 106 — the function
applies no clamp, so the score is not confined to [0, 100] for arbitrary
inputs. -/
theorem trust_score_exceeds_100_cex :
    TrustScore.calculate_provider_trust_score c8DB 1 = some 106
    ∧ ¬ ((106 : ℚ) ≤ 100) := by
  constructor
  · norm_num [TrustScore.calculate_provider_trust_score,
      TrustScore.completionRateAsWritten, TrustScore.avgRatingComponent,
      TrustScore.verificationComponent, TrustScore.responseScore, c8DB]
  · norm_num

/-- The as-written completion rate always lies in [0, 100]. -/
theorem completionRateAsWritten_bounds (db : TrustScore.TrustDB) :
    0 ≤ TrustScore.completionRateAsWritten db
    ∧ TrustScore.completionRateAsWritten db ≤ 100 := by
  unfold TrustScore.completionRateAsWritten
  by_cases h : db.bookings.length = 0
  · rw [if_pos h]
    norm_num
  · rw [if_neg h]
    have hlen : 0 < (db.bookings.length : ℚ) := by
      have : 0 < db.bookings.length := Nat.pos_of_ne_zero h
      exact_mod_cast this
    have hle : ((db.bookings.filter (fun b => b.isCompleted)).length : ℚ)
        ≤ (db.bookings.length : ℚ) := by
      exact_mod_cast List.length_filter_le _ _
    have hnn : (0 : ℚ)
        ≤ ((db.bookings.filter (fun b => b.isCompleted)).length : ℚ) := by
      positivity
    constructor
    · positivity
    · have hdiv : ((db.bookings.filter (fun b => b.isCompleted)).length : ℚ)
          / (db.bookings.length : ℚ) ≤ 1 := by
        rw [div_le_one hlen]
        exact hle
      nlinarith

/-- The verification component always lies in [0, 100]. -/
theorem verificationComponent_bounds (db : TrustScore.TrustDB) (pid : Nat) :
    0 ≤ TrustScore.verificationComponent db pid
    ∧ TrustScore.verificationComponent db pid ≤ 100 := by
  unfold TrustScore.verificationComponent
  by_cases h : (db.verificationDocs.filter (fun d => d.userId == pid)).length = 0
  · rw [if_pos h]
    norm_num
  · rw [if_neg h]
    have hlen : 0 < ((db.verificationDocs.filter
        (fun d => d.userId == pid)).length : ℚ) := by
      have : 0 < (db.verificationDocs.filter (fun d => d.userId == pid)).length :=
        Nat.pos_of_ne_zero h
      exact_mod_cast this
    have hle : (((db.verificationDocs.filter (fun d => d.userId == pid)).filter
          (fun d => d.isVerified)).length : ℚ)
        ≤ ((db.verificationDocs.filter (fun d => d.userId == pid)).length : ℚ) := by
      exact_mod_cast List.length_filter_le _ _
    have hnn : (0 : ℚ) ≤ (((db.verificationDocs.filter
        (fun d => d.userId == pid)).filter (fun d => d.isVerified)).length : ℚ) := by
      positivity
    constructor
    · positivity
    · have hdiv : (((db.verificationDocs.filter (fun d => d.userId == pid)).filter
            (fun d => d.isVerified)).length : ℚ)
          / ((db.verificationDocs.filter (fun d => d.userId == pid)).length : ℚ)
          ≤ 1 := by
        rw [div_le_one hlen]
        exact hle
      nlinarith

/-- With all ratings in [0, 5], the rating component lies in [0, 100]. -/
theorem avgRatingComponent_bounds (db : TrustScore.TrustDB) (pid : Nat)
    (hr : ∀ r ∈ db.reviews, 0 ≤ r.rating ∧ r.rating ≤ 5) :
    0 ≤ TrustScore.avgRatingComponent db pid
    ∧ TrustScore.avgRatingComponent db pid ≤ 100 := by
  unfold TrustScore.avgRatingComponent
  by_cases h : (db.reviews.filter (fun r => r.targetId == pid)).length = 0
  · rw [if_pos h]
    norm_num
  · rw [if_neg h]
    have hlen : 0 < ((db.reviews.filter (fun r => r.targetId == pid)).length : ℚ) := by
      have : 0 < (db.reviews.filter (fun r => r.targetId == pid)).length :=
        Nat.pos_of_ne_zero h
      exact_mod_cast this
    have hnn : 0 ≤ ((db.reviews.filter (fun r => r.targetId == pid)).map
        (fun r => r.rating)).sum := by
      apply List.sum_nonneg
      intro x hx
      obtain ⟨r, hrmem, hrx⟩ := List.mem_map.mp hx
      rw [← hrx]
      exact (hr r (List.mem_of_mem_filter hrmem)).1
    have hub : ((db.reviews.filter (fun r => r.targetId == pid)).map
          (fun r => r.rating)).sum
        ≤ ((db.reviews.filter (fun r => r.targetId == pid)).length : ℚ) * 5 := by
      have := List.sum_le_card_nsmul ((db.reviews.filter
          (fun r => r.targetId == pid)).map (fun r => r.rating)) 5 (by
        intro x hx
        obtain ⟨r, hrmem, hrx⟩ := List.mem_map.mp hx
        rw [← hrx]
        exact (hr r (List.mem_of_mem_filter hrmem)).2)
      rw [List.length_map, nsmul_eq_mul] at this
      exact this
    have havg : ((db.reviews.filter (fun r => r.targetId == pid)).map
          (fun r => r.rating)).sum
          / ((db.reviews.filter (fun r => r.targetId == pid)).length : ℚ) ≤ 5 := by
      rw [div_le_iff hlen]
      linarith
    have havg0 : 0 ≤ ((db.reviews.filter (fun r => r.targetId == pid)).map
          (fun r => r.rating)).sum
          / ((db.reviews.filter (fun r => r.targetId == pid)).length : ℚ) := by
      positivity
    constructor
    · nlinarith
    · nlinarith

/-- The responsiveness component always lies in [0, 100] (its values are
40, 50, 60, 80 or 100). -/
theorem responseScore_bounds (t : Option ℚ) :
    0 ≤ TrustScore.responseScore t ∧ TrustScore.responseScore t ≤ 100 := by
  cases t with
  | none => norm_num [TrustScore.responseScore]
  | some x =>
    rw [show TrustScore.responseScore (some x)
      = (if x ≤ 15 then 100 else if x ≤ 30 then 80
          else if x ≤ 60 then 60 else (40 : ℚ)) from rfl]
    by_cases h1 : x ≤ 15
    · rw [if_pos h1]; norm_num
    · rw [if_neg h1]
      by_cases h2 : x ≤ 30
      · rw [if_pos h2]; norm_num
      · rw [if_neg h2]
        by_cases h3 : x ≤ 60
        · rw [if_pos h3]; norm_num
        · rw [if_neg h3]; norm_num

/-- C8 (amended): the function applies no clamp, so the bound holds only
for in-range inputs: whenever the computation returns a score and every
stored rating lies in the nominal range [0, 5], the resulting trust score
lies in [0, 100] (the other three components are inherently within
[0, 100]).  Out-of-range ratings break the bound — see the
counterexample. -/
theorem trust_score_bounded_for_nominal_ratings (db : TrustScore.TrustDB)
    (pid : Nat) (s : ℚ)
    (hs : TrustScore.calculate_provider_trust_score db pid = some s)
    (hr : ∀ r ∈ db.reviews, 0 ≤ r.rating ∧ r.rating ≤ 5) :
    0 ≤ s ∧ s ≤ 100 := by
  unfold TrustScore.calculate_provider_trust_score at hs
  cases hp : db.profiles.find? (fun p => p.userId == pid) with
  | none => rw [hp] at hs; exact absurd hs (by simp)
  | some pr =>
    rw [hp] at hs
    have hsval : s = TrustScore.completionRateAsWritten db * (4 / 10)
        + TrustScore.avgRatingComponent db pid * (3 / 10)
        + TrustScore.verificationComponent db pid * (2 / 10)
        + TrustScore.responseScore pr.responseTimeMin * (1 / 10) :=
      (Option.some_inj.mp hs).symm
    obtain ⟨c0, c1⟩ := completionRateAsWritten_bounds db
    obtain ⟨a0, a1⟩ := avgRatingComponent_bounds db pid hr
    obtain ⟨v0, v1⟩ := verificationComponent_bounds db pid
    obtain ⟨r0, r1⟩ := responseScore_bounds pr.responseTimeMin
    constructor
    · rw [hsval]; linarith
    · rw [hsval]; linarith

/-- Witness for C8's amended theorem: with every input in range (rating
4), the computed score 94 lies within [0, 100]. -/
theorem trust_score_bounded_for_nominal_ratings_witness :
    0 ≤ (94 : ℚ) ∧ (94 : ℚ) ≤ 100 :=
  trust_score_bounded_for_nominal_ratings c8nomDB 1 94
    (by norm_num [TrustScore.calculate_provider_trust_score,
      TrustScore.completionRateAsWritten, TrustScore.avgRatingComponent,
      TrustScore.verificationComponent, TrustScore.responseScore, c8nomDB])
    (by
      intro r hrr
      simp [c8nomDB] at hrr
      rw [hrr]
      norm_num)
